import Mathlib

set_option autoImplicit false

/-
Verification development for the DumbWatch digital-clock state machine
(src/dumbwatch.py).  The Python program keeps all state in one mutable
object; here the state is a Lean structure and every handler is a pure
function from state to state.  Wall-clock timestamps (Python `datetime`)
are modelled as integer microseconds since an epoch aligned to midnight
(1970-01-01 00:00:00), and `timedelta` values as integer microseconds.
Python `//` and `%` are floor division / floor modulus, which for the
positive divisors used here coincide with Lean `Int` division `/` (ediv)
and `%` (emod); Python `int(float)` truncation toward zero is `Int.tdiv`
on exact microsecond counts.
-/

namespace DumbWatch

def USEC_PER_SEC : Int := 1000000

def USEC_PER_MIN : Int := 60000000

def USEC_PER_HOUR : Int := 3600000000

def USEC_PER_DAY : Int := 86400000000

/-- The `ClockMode` enumeration of dumbwatch.py. -/
inductive ClockMode where
  | TIME
  | SET_HOUR
  | SET_MINUTE
  | SET_SECOND
  | ALARM
  | SET_ALARM_HOUR
  | SET_ALARM_MINUTE
  | STOPWATCH
  | TIMER
deriving DecidableEq, BEq, Repr

/-- The `.value` string of each `ClockMode` member. -/
def ClockMode.value : ClockMode → String
  | .TIME => "TIME"
  | .SET_HOUR => "SET HOUR"
  | .SET_MINUTE => "SET MINUTE"
  | .SET_SECOND => "SET SECOND"
  | .ALARM => "ALARM"
  | .SET_ALARM_HOUR => "SET ALARM HOUR"
  | .SET_ALARM_MINUTE => "SET ALARM MINUTE"
  | .STOPWATCH => "STOPWATCH"
  | .TIMER => "TIMER"

/-- The `.hour` attribute of a datetime stored as microseconds. -/
def dt_hour (t : Int) : Int := (t / USEC_PER_HOUR) % 24

/-- The `.minute` attribute of a datetime stored as microseconds. -/
def dt_minute (t : Int) : Int := (t / USEC_PER_MIN) % 60

/-- The `.second` attribute of a datetime stored as microseconds. -/
def dt_second (t : Int) : Int := (t / USEC_PER_SEC) % 60

/-- The `.microsecond` attribute of a datetime stored as microseconds. -/
def dt_microsecond (t : Int) : Int := t % USEC_PER_SEC

/-- `datetime.replace(hour=h)`: same date, minute, second and microsecond,
hour field set to `h`. -/
def replace_hour (t h : Int) : Int := t + (h - dt_hour t) * USEC_PER_HOUR

/-- `datetime.replace(minute=m)`. -/
def replace_minute (t m : Int) : Int := t + (m - dt_minute t) * USEC_PER_MIN

/-- `datetime.replace(second=sec)`. -/
def replace_second (t sec : Int) : Int := t + (sec - dt_second t) * USEC_PER_SEC

/-- `datetime.replace(microsecond=u)`. -/
def replace_microsecond (t u : Int) : Int := t + (u - dt_microsecond t)

/-- `int(td.total_seconds())` for a timedelta of `x` microseconds:
`total_seconds()` is `x / 10**6` and `int` truncates toward zero. -/
def py_int_total_seconds (x : Int) : Int := x.tdiv USEC_PER_SEC

/-- The normalized `.microseconds` attribute of a timedelta of `x`
microseconds (always in `[0, 10**6)`). -/
def td_microseconds (x : Int) : Int := x % USEC_PER_SEC

/-- Python `f-string` `02d`-style zero padding to width `w`. -/
def padz (w : Nat) (n : Int) : String :=
  let s := toString n
  if s.length < w then String.mk (List.replicate (w - s.length) '0') ++ s else s

/-- Days-count to civil (year, month, day), floor-division form of the
standard civil-from-days algorithm, used to model `strftime`. -/
def civil_from_days (z0 : Int) : Int × Int × Int :=
  let z := z0 + 719468
  let era := z / 146097
  let doe := z % 146097
  let yoe := (doe - doe / 1460 + doe / 36524 - doe / 146096) / 365
  let y := yoe + era * 400
  let doy := doe - (365 * yoe + yoe / 4 - yoe / 100)
  let mp := (5 * doy + 2) / 153
  let d := doy - (153 * mp + 2) / 5 + 1
  let m := if mp < 10 then mp + 3 else mp - 9
  (if m ≤ 2 then y + 1 else y, m, d)

/-- Full weekday name, index 0 = Sunday. -/
def weekday_name (i : Int) : String :=
  if i = 0 then "Sunday"
  else if i = 1 then "Monday"
  else if i = 2 then "Tuesday"
  else if i = 3 then "Wednesday"
  else if i = 4 then "Thursday"
  else if i = 5 then "Friday"
  else "Saturday"

/-- Full month name, 1 = January. -/
def month_name (m : Int) : String :=
  if m = 1 then "January"
  else if m = 2 then "February"
  else if m = 3 then "March"
  else if m = 4 then "April"
  else if m = 5 then "May"
  else if m = 6 then "June"
  else if m = 7 then "July"
  else if m = 8 then "August"
  else if m = 9 then "September"
  else if m = 10 then "October"
  else if m = 11 then "November"
  else "December"

/-- `t.strftime("%A, %B %d, %Y")`: long-form weekday, month day, year.
Epoch day 0 (1970-01-01) was a Thursday. -/
def strftime_long_date (t : Int) : String :=
  let days := t / USEC_PER_DAY
  let ymd := civil_from_days days
  weekday_name ((days + 4) % 7) ++ ", " ++ month_name ymd.2.1 ++ " " ++
    padz 2 ymd.2.2 ++ ", " ++ padz 4 ymd.1

/-- The mutable state of the `DigitalClock` app (its `__init__` fields). -/
structure ClockState where
  current_time : Int
  display_time : Int
  alarm_time : Int
  alarm_enabled : Bool
  mode : ClockMode
  stopwatch_start : Option Int
  stopwatch_elapsed : Int
  stopwatch_running : Bool
  timer_duration : Int
  timer_start : Option Int
  timer_running : Bool
  blink_state : Bool
  setting_blink : Bool
deriving DecidableEq, Repr

/-- `__init__`: the state built at startup when the wall clock reads `now`. -/
def initial_state (now : Int) : ClockState where
  current_time := now
  display_time := now
  alarm_time := replace_microsecond (replace_second (replace_minute (replace_hour now 7) 0) 0) 0
  alarm_enabled := false
  mode := ClockMode.TIME
  stopwatch_start := none
  stopwatch_elapsed := 0
  stopwatch_running := false
  timer_duration := 5 * USEC_PER_MIN
  timer_start := none
  timer_running := false
  blink_state := true
  setting_blink := false

/-- The list of modes that blink while setting (the literal list on lines
142-143 of dumbwatch.py). -/
def setting_modes : List ClockMode :=
  [ClockMode.SET_HOUR, ClockMode.SET_MINUTE, ClockMode.SET_SECOND,
   ClockMode.SET_ALARM_HOUR, ClockMode.SET_ALARM_MINUTE]

/-- `update_time` (the tick handler): refresh current time in TIME mode,
advance the stopwatch, expire the countdown timer, toggle blinking.  The
wall clock reads `now` throughout the call. -/
def update_time (now : Int) (s : ClockState) : ClockState :=
  let s1 :=
    if s.mode = ClockMode.TIME then
      { s with current_time := now, display_time := now }
    else s
  let s2 :=
    if s1.stopwatch_running ∧ s1.stopwatch_start.isSome then
      { s1 with stopwatch_elapsed := now - s1.stopwatch_start.getD 0 }
    else s1
  let s3 :=
    match s2.timer_running, s2.timer_start with
    | true, some t0 =>
        if s2.timer_duration - (now - t0) ≤ 0 then { s2 with timer_running := false } else s2
    | _, _ => s2
  if setting_modes.contains s3.mode then { s3 with blink_state := !s3.blink_state } else s3

/-- The four display strings produced by one `update_display` call
(`time_str`, `date_str`, the mode line and the status line). -/
structure RenderModel where
  time_str : String
  date_str : String
  mode_str : String
  status_str : String
deriving DecidableEq, Repr

/-- The repeated `MM:SS` formatting block of `update_display`: minutes and
seconds of an already-truncated whole-second count. -/
def fmt_mmss (total_seconds : Int) : String :=
  padz 2 (total_seconds / 60) ++ ":" ++ padz 2 (total_seconds % 60)

/-- `update_display`: computes the display strings from the state.  The
method assigns to no attribute of the state, so it returns the state it
was given unchanged, paired with the render model.  `now` is the wall
clock read by the running-timer branch. -/
def update_display (now : Int) (s : ClockState) : ClockState × RenderModel :=
  let time_str :=
    if s.mode = ClockMode.STOPWATCH then
      let total_seconds := py_int_total_seconds s.stopwatch_elapsed
      let hundredths := td_microseconds s.stopwatch_elapsed / 10000
      padz 2 (total_seconds / 60) ++ ":" ++ padz 2 (total_seconds % 60) ++ "." ++ padz 2 hundredths
    else if s.mode = ClockMode.TIMER then
      match s.timer_running, s.timer_start with
      | true, some t0 =>
          let remaining := s.timer_duration - (now - t0)
          if 0 < remaining then fmt_mmss (py_int_total_seconds remaining)
          else "00:00"
      | _, _ => fmt_mmss (py_int_total_seconds s.timer_duration)
    else if s.mode = ClockMode.ALARM ∨ s.mode = ClockMode.SET_ALARM_HOUR ∨
            s.mode = ClockMode.SET_ALARM_MINUTE then
      let hour_str :=
        if s.mode = ClockMode.SET_ALARM_HOUR ∧ s.blink_state = false then "  "
        else padz 2 (dt_hour s.alarm_time)
      let minute_str :=
        if s.mode = ClockMode.SET_ALARM_MINUTE ∧ s.blink_state = false then "  "
        else padz 2 (dt_minute s.alarm_time)
      hour_str ++ ":" ++ minute_str
    else
      let hour_str :=
        if s.mode = ClockMode.SET_HOUR ∧ s.blink_state = false then "  "
        else padz 2 (dt_hour s.display_time)
      let minute_str :=
        if s.mode = ClockMode.SET_MINUTE ∧ s.blink_state = false then "  "
        else padz 2 (dt_minute s.display_time)
      let second_str :=
        if s.mode = ClockMode.SET_SECOND ∧ s.blink_state = false then "  "
        else padz 2 (dt_second s.display_time)
      hour_str ++ ":" ++ minute_str ++ ":" ++ second_str
  let date_str :=
    if [ClockMode.STOPWATCH, ClockMode.TIMER].contains s.mode then ""
    else strftime_long_date s.current_time
  let mode_str := "Mode: " ++ s.mode.value
  let status_parts :=
    (if s.alarm_enabled then ["ALM"] else []) ++
    (if s.stopwatch_running then ["SW"] else []) ++
    (if s.timer_running then ["TMR"] else [])
  (s, { time_str := time_str, date_str := date_str, mode_str := mode_str,
        status_str := String.intercalate " | " status_parts })

/-- The top-level mode list `modes` of `cycle_mode`. -/
def modes : List ClockMode :=
  [ClockMode.TIME, ClockMode.ALARM, ClockMode.STOPWATCH, ClockMode.TIMER]

/-- `cycle_mode`: advance through the top-level modes; `modes.index`
raises `ValueError` on a setting sub-mode, and the `except` branch then
assigns `ClockMode.TIME`. -/
def cycle_mode (s : ClockState) : ClockState :=
  match modes.findIdx? (fun m => m == s.mode) with
  | some i => { s with mode := modes.getD ((i + 1) % modes.length) ClockMode.TIME }
  | none => { s with mode := ClockMode.TIME }

/-- `handle_set`: the SET transition table. -/
def handle_set (s : ClockState) : ClockState :=
  if s.mode = ClockMode.TIME then
    { s with mode := ClockMode.SET_HOUR, display_time := s.current_time }
  else if s.mode = ClockMode.SET_HOUR then { s with mode := ClockMode.SET_MINUTE }
  else if s.mode = ClockMode.SET_MINUTE then { s with mode := ClockMode.SET_SECOND }
  else if s.mode = ClockMode.SET_SECOND then
    { s with current_time := s.display_time, mode := ClockMode.TIME }
  else if s.mode = ClockMode.ALARM then { s with mode := ClockMode.SET_ALARM_HOUR }
  else if s.mode = ClockMode.SET_ALARM_HOUR then { s with mode := ClockMode.SET_ALARM_MINUTE }
  else if s.mode = ClockMode.SET_ALARM_MINUTE then
    { s with alarm_enabled := true, mode := ClockMode.ALARM }
  else s

/-- `handle_prev`: decrement the field being edited (Python `%` on a
positive modulus is `Int` emod), or step the timer duration down. -/
def handle_prev (s : ClockState) : ClockState :=
  if s.mode = ClockMode.SET_HOUR then
    { s with display_time := replace_hour s.display_time ((dt_hour s.display_time - 1) % 24) }
  else if s.mode = ClockMode.SET_MINUTE then
    { s with display_time := replace_minute s.display_time ((dt_minute s.display_time - 1) % 60) }
  else if s.mode = ClockMode.SET_SECOND then
    { s with display_time := replace_second s.display_time ((dt_second s.display_time - 1) % 60) }
  else if s.mode = ClockMode.SET_ALARM_HOUR then
    { s with alarm_time := replace_hour s.alarm_time ((dt_hour s.alarm_time - 1) % 24) }
  else if s.mode = ClockMode.SET_ALARM_MINUTE then
    { s with alarm_time := replace_minute s.alarm_time ((dt_minute s.alarm_time - 1) % 60) }
  else if s.mode = ClockMode.TIMER then
    let current_minutes := s.timer_duration / USEC_PER_MIN
    let new_minutes := max 1 (current_minutes - 1)
    { s with timer_duration := new_minutes * USEC_PER_MIN }
  else s

/-- `handle_next`: increment the field being edited, or step the timer
duration up. -/
def handle_next (s : ClockState) : ClockState :=
  if s.mode = ClockMode.SET_HOUR then
    { s with display_time := replace_hour s.display_time ((dt_hour s.display_time + 1) % 24) }
  else if s.mode = ClockMode.SET_MINUTE then
    { s with display_time := replace_minute s.display_time ((dt_minute s.display_time + 1) % 60) }
  else if s.mode = ClockMode.SET_SECOND then
    { s with display_time := replace_second s.display_time ((dt_second s.display_time + 1) % 60) }
  else if s.mode = ClockMode.SET_ALARM_HOUR then
    { s with alarm_time := replace_hour s.alarm_time ((dt_hour s.alarm_time + 1) % 24) }
  else if s.mode = ClockMode.SET_ALARM_MINUTE then
    { s with alarm_time := replace_minute s.alarm_time ((dt_minute s.alarm_time + 1) % 60) }
  else if s.mode = ClockMode.TIMER then
    let current_minutes := s.timer_duration / USEC_PER_MIN
    let new_minutes := min 99 (current_minutes + 1)
    { s with timer_duration := new_minutes * USEC_PER_MIN }
  else s

/-- `handle_start_stop`: stopwatch start/pause/resume, timer toggle,
alarm toggle. -/
def handle_start_stop (now : Int) (s : ClockState) : ClockState :=
  if s.mode = ClockMode.STOPWATCH then
    if s.stopwatch_running then { s with stopwatch_running := false }
    else
      match s.stopwatch_start with
      | none =>
          { s with stopwatch_start := some now, stopwatch_elapsed := 0,
                   stopwatch_running := true }
      | some _ =>
          { s with stopwatch_start := some (now - s.stopwatch_elapsed),
                   stopwatch_running := true }
  else if s.mode = ClockMode.TIMER then
    if s.timer_running then { s with timer_running := false }
    else { s with timer_start := some now, timer_running := true }
  else if s.mode = ClockMode.ALARM then { s with alarm_enabled := !s.alarm_enabled }
  else s

/-- `handle_light`: stopwatch full reset / timer-duration reset, each only
while the relevant feature is not running. -/
def handle_light (s : ClockState) : ClockState :=
  if s.mode = ClockMode.STOPWATCH ∧ ¬s.stopwatch_running then
    { s with stopwatch_start := none, stopwatch_elapsed := 0 }
  else if s.mode = ClockMode.TIMER ∧ ¬s.timer_running then
    { s with timer_duration := 5 * USEC_PER_MIN }
  else s

/-- The six physical-style buttons. -/
inductive Button where
  | mode_btn
  | set_btn
  | prev_btn
  | next_btn
  | start_stop_btn
  | light_btn
deriving DecidableEq, Repr

/-- `on_button_pressed`: dispatch a button press to its handler. -/
def on_button_pressed (b : Button) (now : Int) (s : ClockState) : ClockState :=
  match b with
  | .mode_btn => cycle_mode s
  | .set_btn => handle_set s
  | .prev_btn => handle_prev s
  | .next_btn => handle_next s
  | .start_stop_btn => handle_start_stop now s
  | .light_btn => handle_light s

/-- One external event: a periodic tick or a button press. -/
inductive Event where
  | tick
  | button (b : Button)
deriving DecidableEq, Repr

/-- One step of the whole machine on an event. -/
def step (e : Event) (now : Int) (s : ClockState) : ClockState :=
  match e with
  | .tick => update_time now s
  | .button b => on_button_pressed b now s

/-- `list.index(x)` as fallible Python code: `Except.error` is the raised
`ValueError`. -/
def list_index (l : List ClockMode) (a : ClockMode) : Except String Nat :=
  match l.findIdx? (fun m => m == a) with
  | some i => Except.ok i
  | none => Except.error "ValueError"

/-- `cycle_mode` with its interior raise point explicit: the `try` block
calls `list_index`, and the `except ValueError` arm catches the error and
assigns `ClockMode.TIME`. -/
def cycle_modeE (s : ClockState) : Except String ClockState :=
  match list_index modes s.mode with
  | Except.ok i =>
      Except.ok { s with mode := modes.getD ((i + 1) % modes.length) ClockMode.TIME }
  | Except.error _ => Except.ok { s with mode := ClockMode.TIME }

/-- `on_button_pressed` with exception propagation explicit: only
`cycle_mode` contains a raise point; every other handler is built from
raise-free arithmetic and assignments. -/
def on_button_pressedE (b : Button) (now : Int) (s : ClockState) :
    Except String ClockState :=
  match b with
  | .mode_btn => cycle_modeE s
  | .set_btn => Except.ok (handle_set s)
  | .prev_btn => Except.ok (handle_prev s)
  | .next_btn => Except.ok (handle_next s)
  | .start_stop_btn => Except.ok (handle_start_stop now s)
  | .light_btn => Except.ok (handle_light s)

/-- One step with exception propagation explicit. -/
def stepE (e : Event) (now : Int) (s : ClockState) : Except String ClockState :=
  match e with
  | .tick => Except.ok (update_time now s)
  | .button b => on_button_pressedE b now s

/-- A demonstration state: the machine as built at wall-clock reading 0. -/
def demo : ClockState := initial_state 0

/-- Demonstration state: timer running from wall-clock 0. -/
def timer_demo : ClockState :=
  { demo with mode := ClockMode.TIMER, timer_running := true, timer_start := some 0 }

/-- Demonstration state: timer running (mode TIME) about to expire. -/
def expiring_demo : ClockState :=
  { demo with timer_running := true, timer_start := some 0 }

/-- Demonstration state: paused stopwatch with 2 accumulated seconds. -/
def paused_sw_demo : ClockState :=
  { demo with
      mode := ClockMode.STOPWATCH,
      stopwatch_start := some 10,
      stopwatch_elapsed := 2000000 }

/-- A timer duration that is a whole number of minutes in the closed
interval 1 to 99. -/
def is_clamped_whole_minutes (d : Int) : Prop :=
  ∃ m : Int, 1 ≤ m ∧ m ≤ 99 ∧ d = m * USEC_PER_MIN

/-- A state in which each running flag only holds with its start timestamp
set. -/
def running_implies_started (s : ClockState) : Prop :=
  (s.stopwatch_running = true → s.stopwatch_start.isSome = true) ∧
  (s.timer_running = true → s.timer_start.isSome = true)

/-! ## Helper lemmas -/

theorem add_mul_ediv_usec_hour (a b : Int) :
    (a + b * 3600000000) / 3600000000 = a / 3600000000 + b :=
  Int.add_mul_ediv_right a b (by norm_num)

theorem add_mul_ediv_usec_min (a b : Int) :
    (a + b * 60000000) / 60000000 = a / 60000000 + b :=
  Int.add_mul_ediv_right a b (by norm_num)

theorem add_mul_ediv_usec_sec (a b : Int) :
    (a + b * 1000000) / 1000000 = a / 1000000 + b :=
  Int.add_mul_ediv_right a b (by norm_num)



/-! ## Frame lemmas: which fields each handler leaves alone -/

theorem cycle_mode_fields (s : ClockState) :
    (cycle_mode s).stopwatch_running = s.stopwatch_running ∧
    (cycle_mode s).stopwatch_start = s.stopwatch_start ∧
    (cycle_mode s).timer_running = s.timer_running ∧
    (cycle_mode s).timer_start = s.timer_start ∧
    (cycle_mode s).timer_duration = s.timer_duration := by
  unfold cycle_mode
  split <;> exact ⟨rfl, rfl, rfl, rfl, rfl⟩

theorem handle_set_fields (s : ClockState) :
    (handle_set s).stopwatch_running = s.stopwatch_running ∧
    (handle_set s).stopwatch_start = s.stopwatch_start ∧
    (handle_set s).timer_running = s.timer_running ∧
    (handle_set s).timer_start = s.timer_start ∧
    (handle_set s).timer_duration = s.timer_duration := by
  unfold handle_set
  repeat' split
  all_goals exact ⟨rfl, rfl, rfl, rfl, rfl⟩

theorem handle_prev_fields (s : ClockState) :
    (handle_prev s).stopwatch_running = s.stopwatch_running ∧
    (handle_prev s).stopwatch_start = s.stopwatch_start ∧
    (handle_prev s).timer_running = s.timer_running ∧
    (handle_prev s).timer_start = s.timer_start := by
  unfold handle_prev
  repeat' split
  all_goals exact ⟨rfl, rfl, rfl, rfl⟩

theorem handle_next_fields (s : ClockState) :
    (handle_next s).stopwatch_running = s.stopwatch_running ∧
    (handle_next s).stopwatch_start = s.stopwatch_start ∧
    (handle_next s).timer_running = s.timer_running ∧
    (handle_next s).timer_start = s.timer_start := by
  unfold handle_next
  repeat' split
  all_goals exact ⟨rfl, rfl, rfl, rfl⟩

theorem update_time_stopwatch_running (now : Int) (s : ClockState) :
    (update_time now s).stopwatch_running = s.stopwatch_running := by
  simp only [update_time]
  repeat' split
  all_goals simp_all

theorem update_time_stopwatch_start (now : Int) (s : ClockState) :
    (update_time now s).stopwatch_start = s.stopwatch_start := by
  simp only [update_time]
  repeat' split
  all_goals simp_all

theorem update_time_timer_start (now : Int) (s : ClockState) :
    (update_time now s).timer_start = s.timer_start := by
  simp only [update_time]
  repeat' split
  all_goals simp_all

theorem update_time_timer_duration (now : Int) (s : ClockState) :
    (update_time now s).timer_duration = s.timer_duration := by
  simp only [update_time]
  repeat' split
  all_goals simp_all

theorem update_time_timer_running_mono (now : Int) (s : ClockState)
    (h : (update_time now s).timer_running = true) : s.timer_running = true := by
  revert h
  simp only [update_time]
  repeat' split
  all_goals simp_all

/-! ## Derived facts about the tick handler used by several claims -/

theorem update_time_timer_running_eq (now : Int) (s : ClockState) (t0 : Int)
    (hrun : s.timer_running = true) (hstart : s.timer_start = some t0) :
    (update_time now s).timer_running =
      if s.timer_duration - (now - t0) ≤ 0 then false else s.timer_running := by
  simp only [update_time]
  repeat' split
  all_goals simp_all
  all_goals omega
/-! ## Claims -/

/-- Claim C1, counterexample: in the SET_HOUR sub-mode a MODE press is not
a no-op — `cycle_mode` lands in the `except ValueError` arm, which assigns
`ClockMode.TIME`, so the mode changes. -/
theorem mode_press_in_set_hour_is_not_noop :
    (cycle_mode { demo with mode := ClockMode.SET_HOUR }).mode = ClockMode.TIME ∧
    (cycle_mode { demo with mode := ClockMode.SET_HOUR }).mode ≠ ClockMode.SET_HOUR := by
  decide

/-- Claim C1 (amended): for every state whose mode is one of the five
setting sub-modes, `cycle_mode` resets the mode to TIME and leaves every
other field unchanged. -/
theorem mode_press_in_setting_submode_resets_to_time (s : ClockState)
    (h : s.mode = ClockMode.SET_HOUR ∨ s.mode = ClockMode.SET_MINUTE ∨
         s.mode = ClockMode.SET_SECOND ∨ s.mode = ClockMode.SET_ALARM_HOUR ∨
         s.mode = ClockMode.SET_ALARM_MINUTE) :
    cycle_mode s = { s with mode := ClockMode.TIME } := by
  obtain ⟨ct, dtt, al, ae, m, ss, se, sr, td, ts, tr, bs, sb⟩ := s
  rcases h with h | h | h | h | h <;> subst h <;> rfl

/-- Witness for the amended C1 at a concrete state. -/
theorem mode_press_in_setting_submode_resets_to_time_witness :
    ({ demo with mode := ClockMode.SET_MINUTE } : ClockState).mode = ClockMode.SET_MINUTE ∧
    cycle_mode { demo with mode := ClockMode.SET_MINUTE } =
      { ({ demo with mode := ClockMode.SET_MINUTE } : ClockState) with mode := ClockMode.TIME } :=
  ⟨rfl, mode_press_in_setting_submode_resets_to_time _ (Or.inr (Or.inl rfl))⟩

/-- Claim C2: from TIME, four SET presses in a row return the mode to TIME
and leave `current_time` unchanged (the unedited `display_time` copy taken
on entering SET_HOUR is committed back). -/
theorem set_press_four_times_round_trip (s : ClockState)
    (h : s.mode = ClockMode.TIME) :
    (handle_set (handle_set (handle_set (handle_set s)))).mode = ClockMode.TIME ∧
    (handle_set (handle_set (handle_set (handle_set s)))).current_time = s.current_time := by
  obtain ⟨ct, dtt, al, ae, m, ss, se, sr, td, ts, tr, bs, sb⟩ := s
  subst h
  exact ⟨rfl, rfl⟩

/-- Witness for C2 at a concrete state. -/
theorem set_press_four_times_round_trip_witness :
    (demo.mode = ClockMode.TIME) ∧
    ((handle_set (handle_set (handle_set (handle_set demo)))).mode = ClockMode.TIME ∧
     (handle_set (handle_set (handle_set (handle_set demo)))).current_time = demo.current_time) :=
  ⟨rfl, set_press_four_times_round_trip demo rfl⟩

/-- Claim C3: in every setting sub-mode, PREV then NEXT (and NEXT then
PREV) restores the state — in particular the edited field of the relevant
timestamp — and the single step wraps modulo 24 for hours and modulo 60
for minutes and seconds. -/
theorem prev_next_inverse_pair (s : ClockState)
    (h : s.mode = ClockMode.SET_HOUR ∨ s.mode = ClockMode.SET_MINUTE ∨
         s.mode = ClockMode.SET_SECOND ∨ s.mode = ClockMode.SET_ALARM_HOUR ∨
         s.mode = ClockMode.SET_ALARM_MINUTE) :
    handle_next (handle_prev s) = s ∧ handle_prev (handle_next s) = s ∧
    (s.mode = ClockMode.SET_HOUR →
      dt_hour (handle_prev s).display_time = (dt_hour s.display_time - 1) % 24 ∧
      dt_hour (handle_next s).display_time = (dt_hour s.display_time + 1) % 24) ∧
    (s.mode = ClockMode.SET_MINUTE →
      dt_minute (handle_prev s).display_time = (dt_minute s.display_time - 1) % 60 ∧
      dt_minute (handle_next s).display_time = (dt_minute s.display_time + 1) % 60) ∧
    (s.mode = ClockMode.SET_SECOND →
      dt_second (handle_prev s).display_time = (dt_second s.display_time - 1) % 60 ∧
      dt_second (handle_next s).display_time = (dt_second s.display_time + 1) % 60) ∧
    (s.mode = ClockMode.SET_ALARM_HOUR →
      dt_hour (handle_prev s).alarm_time = (dt_hour s.alarm_time - 1) % 24 ∧
      dt_hour (handle_next s).alarm_time = (dt_hour s.alarm_time + 1) % 24) ∧
    (s.mode = ClockMode.SET_ALARM_MINUTE →
      dt_minute (handle_prev s).alarm_time = (dt_minute s.alarm_time - 1) % 60 ∧
      dt_minute (handle_next s).alarm_time = (dt_minute s.alarm_time + 1) % 60) := by
  obtain ⟨ct, dtt, al, ae, m, ss, se, sr, td, ts, tr, bs, sb⟩ := s
  rcases h with h | h | h | h | h <;> subst h <;>
    refine ⟨?_, ?_, ?_, ?_, ?_, ?_, ?_⟩ <;>
      simp [handle_prev, handle_next] <;>
        first
        | (simp only [replace_hour, dt_hour, USEC_PER_HOUR, add_mul_ediv_usec_hour]; omega)
        | (simp only [replace_minute, dt_minute, USEC_PER_MIN, add_mul_ediv_usec_min]; omega)
        | (simp only [replace_second, dt_second, USEC_PER_SEC, add_mul_ediv_usec_sec]; omega)

/-- Witness for C3 at a concrete state. -/
theorem prev_next_inverse_pair_witness :
    (({ demo with mode := ClockMode.SET_HOUR } : ClockState).mode = ClockMode.SET_HOUR ∨
     ({ demo with mode := ClockMode.SET_HOUR } : ClockState).mode = ClockMode.SET_MINUTE ∨
     ({ demo with mode := ClockMode.SET_HOUR } : ClockState).mode = ClockMode.SET_SECOND ∨
     ({ demo with mode := ClockMode.SET_HOUR } : ClockState).mode = ClockMode.SET_ALARM_HOUR ∨
     ({ demo with mode := ClockMode.SET_HOUR } : ClockState).mode = ClockMode.SET_ALARM_MINUTE) ∧
    handle_next (handle_prev { demo with mode := ClockMode.SET_HOUR }) =
      { demo with mode := ClockMode.SET_HOUR } :=
  ⟨Or.inl rfl, (prev_next_inverse_pair { demo with mode := ClockMode.SET_HOUR } (Or.inl rfl)).1⟩

/-- Claim C7: `update_display` mutates no field of the state: it returns
the very state it was given. -/
theorem update_display_mutates_no_state (now : Int) (s : ClockState) :
    (update_display now s).1 = s := rfl

/-- Claim C9: with the one interior raise point (`modes.index` inside
`cycle_mode`) made explicit, every event — each of the six buttons and the
tick — produces a defined successor state and never an uncaught error. -/
theorem all_handlers_total (e : Event) (now : Int) (s : ClockState) :
    ∃ s2, stepE e now s = Except.ok s2 := by
  cases e with
  | tick => exact ⟨_, rfl⟩
  | button b =>
    cases b with
    | mode_btn =>
      unfold stepE on_button_pressedE cycle_modeE list_index
      cases modes.findIdx? (fun m => m == s.mode) <;> exact ⟨_, rfl⟩
    | set_btn => exact ⟨_, rfl⟩
    | prev_btn => exact ⟨_, rfl⟩
    | next_btn => exact ⟨_, rfl⟩
    | start_stop_btn => exact ⟨_, rfl⟩
    | light_btn => exact ⟨_, rfl⟩


/-- Claim C4: `timer_duration` starts at the 5-minute default, and every
operation keeps it a whole number of minutes in `[1, 99]`: PREV steps it
down one minute clamped at 1, NEXT steps it up one minute clamped at 99,
and LIGHT on an idle timer resets it to the 5-minute default. -/
theorem timer_duration_clamped_whole_minutes (t now : Int) (e : Event) (s : ClockState)
    (h : is_clamped_whole_minutes s.timer_duration) :
    (initial_state t).timer_duration = 5 * USEC_PER_MIN ∧
    is_clamped_whole_minutes (initial_state t).timer_duration ∧
    is_clamped_whole_minutes (step e now s).timer_duration ∧
    (∀ m : Int, 1 ≤ m → m ≤ 99 → s.timer_duration = m * USEC_PER_MIN →
      s.mode = ClockMode.TIMER →
      (handle_prev s).timer_duration = max 1 (m - 1) * USEC_PER_MIN ∧
      (handle_next s).timer_duration = min 99 (m + 1) * USEC_PER_MIN) ∧
    (s.mode = ClockMode.TIMER → s.timer_running = false →
      (handle_light s).timer_duration = 5 * USEC_PER_MIN) := by
  have hmin : (USEC_PER_MIN : Int) ≠ 0 := by norm_num [USEC_PER_MIN]
  obtain ⟨m, h1, h99, hd⟩ := h
  refine ⟨rfl, ⟨5, by norm_num, by norm_num, rfl⟩, ?_, ?_, ?_⟩
  · cases e with
    | tick =>
      show is_clamped_whole_minutes (update_time now s).timer_duration
      rw [update_time_timer_duration]
      exact ⟨m, h1, h99, hd⟩
    | button b =>
      cases b with
      | mode_btn =>
        show is_clamped_whole_minutes (cycle_mode s).timer_duration
        rw [(cycle_mode_fields s).2.2.2.2]
        exact ⟨m, h1, h99, hd⟩
      | set_btn =>
        show is_clamped_whole_minutes (handle_set s).timer_duration
        rw [(handle_set_fields s).2.2.2.2]
        exact ⟨m, h1, h99, hd⟩
      | prev_btn =>
        show is_clamped_whole_minutes (handle_prev s).timer_duration
        unfold handle_prev
        repeat' split
        all_goals try exact ⟨m, h1, h99, hd⟩
        refine ⟨max 1 (s.timer_duration / USEC_PER_MIN - 1), ?_, ?_, rfl⟩
        · omega
        · rw [hd, Int.mul_ediv_cancel m hmin]; omega
      | next_btn =>
        show is_clamped_whole_minutes (handle_next s).timer_duration
        unfold handle_next
        repeat' split
        all_goals try exact ⟨m, h1, h99, hd⟩
        refine ⟨min 99 (s.timer_duration / USEC_PER_MIN + 1), ?_, ?_, rfl⟩
        · rw [hd, Int.mul_ediv_cancel m hmin]; omega
        · omega
      | start_stop_btn =>
        show is_clamped_whole_minutes (handle_start_stop now s).timer_duration
        unfold handle_start_stop
        repeat' split
        all_goals exact ⟨m, h1, h99, hd⟩
      | light_btn =>
        show is_clamped_whole_minutes (handle_light s).timer_duration
        unfold handle_light
        repeat' split
        all_goals first
          | exact ⟨m, h1, h99, hd⟩
          | exact ⟨5, by norm_num, by norm_num, rfl⟩
  · intro m2 hm1 hm99 hdur hmode
    constructor
    · simp [handle_prev, hmode]
      rw [hdur, Int.mul_ediv_cancel m2 hmin]
      exact Or.inl rfl
    · simp [handle_next, hmode]
      rw [hdur, Int.mul_ediv_cancel m2 hmin]
      exact Or.inl rfl
  · intro hmode hnr
    simp [handle_light, hmode, hnr]

/-- Witness for C4 at a concrete state and event. -/
theorem timer_duration_clamped_whole_minutes_witness :
    is_clamped_whole_minutes demo.timer_duration ∧
    is_clamped_whole_minutes ((step (Event.button Button.prev_btn) 0 demo).timer_duration) :=
  ⟨⟨5, by norm_num, by norm_num, rfl⟩,
   (timer_duration_clamped_whole_minutes 0 0 (Event.button Button.prev_btn) demo
     ⟨5, by norm_num, by norm_num, rfl⟩).2.2.1⟩





/-- Claim C5: in TIMER mode the rendered `time_str` is the remaining time
as `MM:SS` (whole seconds) while the timer is running with positive
remaining, the literal `00:00` while running with remaining at or below
zero, and the `timer_duration` as `MM:SS` while not running; `date_str` is
empty in this mode. -/
theorem timer_render_strings (now : Int) (s : ClockState)
    (hmode : s.mode = ClockMode.TIMER) :
    ((update_display now s).2.date_str = "") ∧
    (∀ t0 : Int, s.timer_start = some t0 → s.timer_running = true →
      (0 < s.timer_duration - (now - t0) →
        (update_display now s).2.time_str =
          fmt_mmss (py_int_total_seconds (s.timer_duration - (now - t0)))) ∧
      (s.timer_duration - (now - t0) ≤ 0 →
        (update_display now s).2.time_str = "00:00")) ∧
    (s.timer_running = false →
      (update_display now s).2.time_str =
        fmt_mmss (py_int_total_seconds s.timer_duration)) := by
  have hin : ([ClockMode.STOPWATCH, ClockMode.TIMER].contains ClockMode.TIMER) = true := by
    decide
  refine ⟨?_, fun t0 hts htr => ⟨fun hpos => ?_, fun hle => ?_⟩, fun hnr => ?_⟩
  · simp [update_display, hmode, hin]
  · simp [update_display, hmode, hts, htr, hpos]
  · have hnp : ¬ 0 < s.timer_duration - (now - t0) := by omega
    simp [update_display, hmode, hts, htr, hnp]
  · cases hts : s.timer_start <;> simp [update_display, hmode, hnr, hts]

/-- Witness for C5 at a concrete running-timer state. -/
theorem timer_render_strings_witness :
    timer_demo.mode = ClockMode.TIMER ∧
    (((update_display 5000000 timer_demo).2.date_str = "") ∧
     (∀ t0 : Int, timer_demo.timer_start = some t0 → timer_demo.timer_running = true →
       (0 < timer_demo.timer_duration - (5000000 - t0) →
         (update_display 5000000 timer_demo).2.time_str =
           fmt_mmss (py_int_total_seconds (timer_demo.timer_duration - (5000000 - t0)))) ∧
       (timer_demo.timer_duration - (5000000 - t0) ≤ 0 →
         (update_display 5000000 timer_demo).2.time_str = "00:00")) ∧
     (timer_demo.timer_running = false →
       (update_display 5000000 timer_demo).2.time_str =
         fmt_mmss (py_int_total_seconds timer_demo.timer_duration))) :=
  ⟨rfl, timer_render_strings 5000000 timer_demo rfl⟩

/-- Claim C6: on a tick with the timer running from `t0`, expiry
(remaining at or below zero) clears `timer_running` while leaving
`timer_start` set and `timer_duration` unchanged; with positive remaining
the tick changes none of the timer fields. -/
theorem tick_timer_expiry (now : Int) (s : ClockState) (t0 : Int)
    (hrun : s.timer_running = true) (hstart : s.timer_start = some t0) :
    (s.timer_duration - (now - t0) ≤ 0 →
      (update_time now s).timer_running = false ∧
      (update_time now s).timer_start = some t0 ∧
      (update_time now s).timer_duration = s.timer_duration) ∧
    (0 < s.timer_duration - (now - t0) →
      (update_time now s).timer_running = s.timer_running ∧
      (update_time now s).timer_start = s.timer_start ∧
      (update_time now s).timer_duration = s.timer_duration) := by
  constructor
  · intro hle
    refine ⟨?_, ?_, ?_⟩
    · rw [update_time_timer_running_eq now s t0 hrun hstart, if_pos hle]
    · rw [update_time_timer_start, hstart]
    · rw [update_time_timer_duration]
  · intro hpos
    have hnle : ¬ s.timer_duration - (now - t0) ≤ 0 := by omega
    refine ⟨?_, ?_, ?_⟩
    · rw [update_time_timer_running_eq now s t0 hrun hstart, if_neg hnle]
    · rw [update_time_timer_start]
    · rw [update_time_timer_duration]

/-- Witness for C6 at a concrete expiring timer. -/
theorem tick_timer_expiry_witness :
    expiring_demo.timer_running = true ∧
    expiring_demo.timer_start = some 0 ∧
    ((expiring_demo.timer_duration - (400000000 - 0) ≤ 0 →
      (update_time 400000000 expiring_demo).timer_running = false ∧
      (update_time 400000000 expiring_demo).timer_start = some 0 ∧
      (update_time 400000000 expiring_demo).timer_duration = expiring_demo.timer_duration) ∧
     (0 < expiring_demo.timer_duration - (400000000 - 0) →
      (update_time 400000000 expiring_demo).timer_running = expiring_demo.timer_running ∧
      (update_time 400000000 expiring_demo).timer_start = expiring_demo.timer_start ∧
      (update_time 400000000 expiring_demo).timer_duration = expiring_demo.timer_duration)) :=
  ⟨rfl, rfl, tick_timer_expiry 400000000 expiring_demo 0 rfl rfl⟩

/-- Claim C8: resuming a paused stopwatch (not running, start still set,
positive accumulated elapsed `e`) at wall-clock `now` sets
`stopwatch_start = now - e` and `stopwatch_running = true`, so a later
tick at `later` computes elapsed `e + (later - now)`: the idle pause
interval is not counted. -/
theorem stopwatch_resume_preserves_elapsed (now : Int) (s : ClockState) (t0 : Int)
    (hmode : s.mode = ClockMode.STOPWATCH) (hrun : s.stopwatch_running = false)
    (hstart : s.stopwatch_start = some t0) (hel : 0 < s.stopwatch_elapsed) :
    (handle_start_stop now s).stopwatch_start = some (now - s.stopwatch_elapsed) ∧
    (handle_start_stop now s).stopwatch_running = true ∧
    ∀ later : Int,
      (update_time later (handle_start_stop now s)).stopwatch_elapsed =
        s.stopwatch_elapsed + (later - now) := by
  have h1 : handle_start_stop now s =
      { s with stopwatch_start := some (now - s.stopwatch_elapsed),
               stopwatch_running := true } := by
    simp [handle_start_stop, hmode, hrun, hstart]
  rw [h1]
  refine ⟨rfl, rfl, fun later => ?_⟩
  simp only [update_time]
  repeat' split
  all_goals simp_all
  all_goals omega

/-- Witness for C8 at a concrete paused stopwatch. -/
theorem stopwatch_resume_preserves_elapsed_witness :
    paused_sw_demo.mode = ClockMode.STOPWATCH ∧
    paused_sw_demo.stopwatch_running = false ∧
    paused_sw_demo.stopwatch_start = some 10 ∧
    (0 : Int) < paused_sw_demo.stopwatch_elapsed ∧
    ((handle_start_stop 7000000 paused_sw_demo).stopwatch_start =
       some (7000000 - paused_sw_demo.stopwatch_elapsed) ∧
     (handle_start_stop 7000000 paused_sw_demo).stopwatch_running = true ∧
     ∀ later : Int,
       (update_time later (handle_start_stop 7000000 paused_sw_demo)).stopwatch_elapsed =
         paused_sw_demo.stopwatch_elapsed + (later - 7000000)) :=
  ⟨rfl, rfl, rfl, by decide,
   stopwatch_resume_preserves_elapsed 7000000 paused_sw_demo 10 rfl rfl rfl (by decide)⟩


/-- Claim C10: the initial state satisfies running-implies-started for
both the stopwatch and the timer, and every event (tick or any button at
any wall-clock reading) preserves it, so the `None`-guards in the tick
handler never decide those branches. -/
theorem running_implies_started_invariant (t : Int) (e : Event) (now : Int)
    (s : ClockState) (h : running_implies_started s) :
    running_implies_started (initial_state t) ∧
    running_implies_started (step e now s) := by
  obtain ⟨hsw, htm⟩ := h
  refine ⟨⟨fun hc => by simp [initial_state] at hc, fun hc => by simp [initial_state] at hc⟩, ?_⟩
  cases e with
  | tick =>
    show running_implies_started (update_time now s)
    refine ⟨fun hc => ?_, fun hc => ?_⟩
    · rw [update_time_stopwatch_running] at hc
      rw [update_time_stopwatch_start]
      exact hsw hc
    · rw [update_time_timer_start]
      exact htm (update_time_timer_running_mono now s hc)
  | button b =>
    cases b with
    | mode_btn =>
      show running_implies_started (cycle_mode s)
      obtain ⟨f1, f2, f3, f4, _⟩ := cycle_mode_fields s
      exact ⟨fun hc => by rw [f2]; exact hsw (by rwa [f1] at hc),
             fun hc => by rw [f4]; exact htm (by rwa [f3] at hc)⟩
    | set_btn =>
      show running_implies_started (handle_set s)
      obtain ⟨f1, f2, f3, f4, _⟩ := handle_set_fields s
      exact ⟨fun hc => by rw [f2]; exact hsw (by rwa [f1] at hc),
             fun hc => by rw [f4]; exact htm (by rwa [f3] at hc)⟩
    | prev_btn =>
      show running_implies_started (handle_prev s)
      obtain ⟨f1, f2, f3, f4⟩ := handle_prev_fields s
      exact ⟨fun hc => by rw [f2]; exact hsw (by rwa [f1] at hc),
             fun hc => by rw [f4]; exact htm (by rwa [f3] at hc)⟩
    | next_btn =>
      show running_implies_started (handle_next s)
      obtain ⟨f1, f2, f3, f4⟩ := handle_next_fields s
      exact ⟨fun hc => by rw [f2]; exact hsw (by rwa [f1] at hc),
             fun hc => by rw [f4]; exact htm (by rwa [f3] at hc)⟩
    | start_stop_btn =>
      show running_implies_started (handle_start_stop now s)
      unfold handle_start_stop running_implies_started
      repeat' split
      all_goals simp_all
    | light_btn =>
      show running_implies_started (handle_light s)
      unfold handle_light running_implies_started
      repeat' split
      all_goals simp_all

/-- Witness for C10 at a concrete state and event. -/
theorem running_implies_started_invariant_witness :
    running_implies_started demo ∧
    (running_implies_started (initial_state 3) ∧
     running_implies_started (step (Event.button Button.start_stop_btn) 9 demo)) :=
  ⟨by constructor <;> intro hc <;> simp [demo, initial_state] at hc,
   running_implies_started_invariant 3 (Event.button Button.start_stop_btn) 9 demo
     (by constructor <;> intro hc <;> simp [demo, initial_state] at hc)⟩

end DumbWatch
